import Mathlib

/-!
Verification development for the Bluetooth Audio Device Lifecycle Manager of
the aura-remote-hub backend (`server` file, Express + child_process).

The backend drives two external tools (`bluetoothctl`, PulseAudio's
`pacmd`/`pactl`) through a promisified `exec`.  We model an execution
environment as a deterministic map from a shell command string to either the
command's stdout (`Except.ok`) or a thrown error message (`Except.error`),
exactly the two outcomes the JavaScript `await execAsync(cmd)` distinguishes.
Every embedded operation returns, besides its result, the ordered list of
external-process invocations it performed (an `ExecCall` records the command
string and the timeout option passed to `exec`; the source never passes an
options object, so every call site is built with `timeoutMs := none`).

String manipulation in the source uses `String.prototype.includes`, `split`
(single-character separators only), `trim`, `slice(2).join(" ")` and
`replace(/:/g, "_")`; the helpers below reproduce those semantics with
structurally recursive functions so that all definitions evaluate inside the
kernel.
-/

set_option maxRecDepth 8192

namespace AuraBT

/-- Split a character list at every occurrence of `sep`
(JavaScript `split` keeps empty segments, e.g. `"a  b".split(" ") = ["a","","b"]`). -/
def splitCharAux (sep : Char) : List Char → List (List Char)
  | [] => [[]]
  | c :: t =>
    match splitCharAux sep t with
    | [] => [[]]
    | h :: r => if c = sep then [] :: h :: r else (c :: h) :: r

/-- JavaScript `s.split(sep)` for a one-character separator. -/
def jsSplit (s : String) (sep : Char) : List String :=
  (splitCharAux sep s.data).map String.mk

/-- Whether `pat` occurs at the head of `s`. -/
def startsWithL : List Char → List Char → Bool
  | [], _ => true
  | _ :: _, [] => false
  | a :: as, b :: bs => a == b && startsWithL as bs

/-- Whether `pat` occurs anywhere in `s`. -/
def containsSub (pat : List Char) : List Char → Bool
  | [] => startsWithL pat []
  | c :: t => startsWithL pat (c :: t) || containsSub pat t

/-- JavaScript `s.includes(sub)`. -/
def jsIncludes (s sub : String) : Bool := containsSub sub.data s.data

/-- The whitespace characters relevant to the tool outputs handled here. -/
def isWs (c : Char) : Bool := c == ' ' || c == '\n' || c == '\t' || c == '\r'

/-- JavaScript `s.trim()`. -/
def jsTrim (s : String) : String :=
  ⟨((s.data.dropWhile isWs).reverse.dropWhile isWs).reverse⟩

/-- JavaScript `parts.join(" ")`. -/
def joinSpace : List String → String
  | [] => ""
  | [x] => x
  | x :: xs => x ++ " " ++ joinSpace xs

/-- One external-process invocation: the command line handed to `exec` and the
timeout option passed alongside it (`none` when no options object is given,
which means no deadline at all for node's `child_process.exec`). -/
structure ExecCall where
  cmd : String
  timeoutMs : Option Nat
deriving DecidableEq, Repr

/-- An execution environment: what each shell command does when invoked.
`Except.ok out` is a zero-exit run with stdout `out`; `Except.error msg` is a
rejected promise (non-zero exit, tool failure line, missing binary, ...)
carrying the error message. -/
structure ExecEnv where
  run : String → Except String String

/-! ### Device-list and info parsing shared by the Bluetooth operations -/

/-- Split a `bluetoothctl devices` stdout into its non-empty lines
(`stdout.trim().split("\n").filter(Boolean)` in the source). -/
def deviceLines (out : String) : List String :=
  (jsSplit (jsTrim out) '\n').filter (fun l => l != "")

/-- The device identifier extracted from one device-list line
(`line.split(" ")[1]`); a line with fewer than two tokens yields the literal
string `"undefined"`, matching JavaScript template-literal interpolation of
`undefined` into the follow-up `bluetoothctl info` command. -/
def lineDeviceId (line : String) : String :=
  ((jsSplit line ' ')[1]?).getD "undefined"

/-- The free-text device name from one device-list line
(`line.split(" ").slice(2).join(" ")`). -/
def lineDeviceName (line : String) : String :=
  joinSpace ((jsSplit line ' ').drop 2)

/-- The audio-capability test applied to a `bluetoothctl info` dump:
`includes("Audio Sink") || includes("A2DP") || includes("audio")`. -/
def audioMarker (info : String) : Bool :=
  jsIncludes info "Audio Sink" || jsIncludes info "A2DP" || jsIncludes info "audio"

/-- A device record as assembled by the backend's status/connected handlers. -/
structure BTDevice where
  id : String
  name : String
  mac : String
  connected : Bool
  paired : Bool
  isAudioDevice : Option Bool := none
deriving DecidableEq, Repr

/-! ### Audio sink naming and the default-sink query -/

/-- `deviceId.replace(/:/g, "_")`. -/
def replaceColons (s : String) : String :=
  ⟨s.data.map fun c => if c = ':' then '_' else c⟩

/-- The sink-name transform: `bluez_sink.${deviceId.replace(/:/g, "_")}.a2dp_sink`. -/
def sinkNameFor (deviceId : String) : String :=
  "bluez_sink." ++ replaceColons deviceId ++ ".a2dp_sink"

/-- Query the default sink (`pactl info | grep "Default Sink"`), returning the
invocation list, the sink name and the `bluez_sink` pattern match.  A failed
invocation, or output without a `:` (where `split(":")[1].trim()` throws a
TypeError caught by the surrounding bare `catch`), leaves the defaults
`("unknown", false)`. -/
def defaultSinkQuery (env : ExecEnv) : List ExecCall × String × Bool :=
  match env.run "pactl info | grep \"Default Sink\"" with
  | .error _ => ([⟨"pactl info | grep \"Default Sink\"", none⟩], "unknown", false)
  | .ok out =>
    match (jsSplit out ':')[1]? with
    | none => ([⟨"pactl info | grep \"Default Sink\"", none⟩], "unknown", false)
    | some seg =>
      let sink := jsTrim seg
      ([⟨"pactl info | grep \"Default Sink\"", none⟩], sink, jsIncludes sink "bluez_sink")

/-! ### The connection orchestrator (`connectBluetoothAudio`) -/

/-- Composite result returned by a successful `connectBluetoothAudio` run. -/
structure ConnectResult where
  connected : Bool
  deviceId : String
  deviceName : String
  audioSink : String
  audioSetSuccess : Bool
  wasReconnected : Bool
deriving DecidableEq, Repr

/-- One iteration of the "disconnect any currently connected device" loop.
`parts[1]` must be truthy (present and non-empty); the `bluetoothctl info`
call and, when the info dump reports `Connected: yes`, the follow-up
`bluetoothctl disconnect` run under a try/catch whose handler ignores the
error, so a failing disconnect is still recorded as an invocation but has no
further effect. -/
def clearPriorLine (env : ExecEnv) (line : String) : List ExecCall :=
  match (jsSplit line ' ')[1]? with
  | none => []
  | some existingId =>
    if existingId = "" then []
    else
      match env.run ("bluetoothctl info " ++ existingId) with
      | .error _ => [⟨"bluetoothctl info " ++ existingId, none⟩]
      | .ok info =>
        if jsIncludes info "Connected: yes" then
          [⟨"bluetoothctl info " ++ existingId, none⟩,
           ⟨"bluetoothctl disconnect " ++ existingId, none⟩]
        else
          [⟨"bluetoothctl info " ++ existingId, none⟩]

/-- The best-effort "clear prior connections" step: enumerate devices and
disconnect each connected one.  The whole block sits in a try/catch that logs
and continues, so a failing `bluetoothctl devices` only shortens the
invocation list. -/
def clearPriorConnections (env : ExecEnv) : List ExecCall :=
  match env.run "bluetoothctl devices" with
  | .error _ => [⟨"bluetoothctl devices", none⟩]
  | .ok out =>
    ⟨"bluetoothctl devices", none⟩ ::
      ((deviceLines out).map (clearPriorLine env)).flatten

/-- The trust/pair step: `trust` then `pair`, both under one try/catch whose
handler treats failure as "already paired"; a failing `trust` skips `pair`. -/
def trustPairStep (env : ExecEnv) (deviceId : String) : List ExecCall :=
  match env.run ("bluetoothctl trust " ++ deviceId) with
  | .error _ => [⟨"bluetoothctl trust " ++ deviceId, none⟩]
  | .ok _ =>
    [⟨"bluetoothctl trust " ++ deviceId, none⟩,
     ⟨"bluetoothctl pair " ++ deviceId, none⟩]

/-- The idempotent-reconnect step: query the target's info; when it reports
`Connected: yes`, disconnect it, wait a 2s settle delay and set the
`isAlreadyConnected` flag.  Every failure in the block (info query or the
disconnect itself) is caught and leaves the flag `false`. -/
def targetReconnectStep (env : ExecEnv) (deviceId : String) : List ExecCall × Bool :=
  match env.run ("bluetoothctl info " ++ deviceId) with
  | .error _ => ([⟨"bluetoothctl info " ++ deviceId, none⟩], false)
  | .ok info =>
    if jsIncludes info "Connected: yes" then
      match env.run ("bluetoothctl disconnect " ++ deviceId) with
      | .error _ =>
        ([⟨"bluetoothctl info " ++ deviceId, none⟩,
          ⟨"bluetoothctl disconnect " ++ deviceId, none⟩], false)
      | .ok _ =>
        ([⟨"bluetoothctl info " ++ deviceId, none⟩,
          ⟨"bluetoothctl disconnect " ++ deviceId, none⟩], true)
    else
      ([⟨"bluetoothctl info " ++ deviceId, none⟩], false)

/-- The sink-selection step: `pacmd set-default-sink`, falling back to
`pactl set-default-sink`; when both fail the handler lists the available
sinks for debugging (outcome ignored) and leaves `audioSetSuccess = false`. -/
def audioRouteStep (env : ExecEnv) (sinkName : String) : List ExecCall × Bool :=
  match env.run ("pacmd set-default-sink " ++ sinkName) with
  | .ok _ => ([⟨"pacmd set-default-sink " ++ sinkName, none⟩], true)
  | .error _ =>
    match env.run ("pactl set-default-sink " ++ sinkName) with
    | .ok _ =>
      ([⟨"pacmd set-default-sink " ++ sinkName, none⟩,
        ⟨"pactl set-default-sink " ++ sinkName, none⟩], true)
    | .error _ =>
      ([⟨"pacmd set-default-sink " ++ sinkName, none⟩,
        ⟨"pactl set-default-sink " ++ sinkName, none⟩,
        ⟨"pactl list short sinks", none⟩], false)

/-- The connection orchestrator `connectBluetoothAudio(deviceId, deviceName)`.
Sequence: start the bluetooth service (failure propagates), clear prior
connections (best effort), trust/pair (tolerated), idempotent-reconnect check,
`bluetoothctl connect` (failure propagates), 3s + 2s settle delays, sink
selection (non-fatal), confirmation tone via `mpg123` (failure logged only),
then the composite result with `connected := true`. -/
def connectBluetoothAudio (env : ExecEnv) (deviceId deviceName : String) :
    List ExecCall × Except String ConnectResult :=
  match env.run "sudo systemctl start bluetooth" with
  | .error e =>
    ([⟨"sudo systemctl start bluetooth", none⟩],
     .error ("Failed to connect to " ++ deviceName ++ ": " ++ e))
  | .ok _ =>
    let t1 := clearPriorConnections env
    let t2 := trustPairStep env deviceId
    let t3 := targetReconnectStep env deviceId
    match env.run ("bluetoothctl connect " ++ deviceId) with
    | .error e =>
      ([⟨"sudo systemctl start bluetooth", none⟩] ++ t1 ++ t2 ++ t3.1 ++
         [⟨"bluetoothctl connect " ++ deviceId, none⟩],
       .error ("Failed to connect to " ++ deviceName ++ ": " ++ e))
    | .ok _ =>
      let sink := sinkNameFor deviceId
      let t4 := audioRouteStep env sink
      ([⟨"sudo systemctl start bluetooth", none⟩] ++ t1 ++ t2 ++ t3.1 ++
         [⟨"bluetoothctl connect " ++ deviceId, none⟩] ++ t4.1 ++
         [⟨"mpg123 /home/username/connected.mp3", none⟩],
       .ok { connected := true, deviceId := deviceId, deviceName := deviceName,
             audioSink := sink, audioSetSuccess := t4.2,
             wasReconnected := t3.2 })

/-! ### The status snapshot (`getBluetoothStatus`) -/

/-- Aggregated status snapshot shape. -/
structure BTStatus where
  serviceActive : Bool
  connectedDevices : List BTDevice
  audioDevices : List BTDevice
  currentAudioSink : String
  isBluetoothAudio : Bool
  hasConnectedAudioDevice : Bool
  error : Option String := none
deriving DecidableEq, Repr

/-- The snapshot returned by the outer catch of `getBluetoothStatus`. -/
def btFailureStatus (e : String) : BTStatus :=
  { serviceActive := false, connectedDevices := [], audioDevices := [],
    currentAudioSink := "unknown", isBluetoothAudio := false,
    hasConnectedAudioDevice := false, error := some e }

/-- Per-line body of the status loop: query `bluetoothctl info` for the line's
device (a failing query skips the device); a `Connected: yes` dump yields a
device record with `paired := true` hardcoded, added to `connectedDevices`,
and additionally to `audioDevices` (with `isAudioDevice: true`) when the dump
carries an audio-capability marker. -/
def statusLine (env : ExecEnv) (line : String) :
    List ExecCall × List BTDevice × List BTDevice :=
  match env.run ("bluetoothctl info " ++ lineDeviceId line) with
  | .error _ => ([⟨"bluetoothctl info " ++ lineDeviceId line, none⟩], [], [])
  | .ok info =>
    if jsIncludes info "Connected: yes" then
      if audioMarker info then
        ([⟨"bluetoothctl info " ++ lineDeviceId line, none⟩],
         [{ id := lineDeviceId line, name := lineDeviceName line,
            mac := lineDeviceId line, connected := true, paired := true }],
         [{ id := lineDeviceId line, name := lineDeviceName line,
            mac := lineDeviceId line, connected := true, paired := true,
            isAudioDevice := some true }])
      else
        ([⟨"bluetoothctl info " ++ lineDeviceId line, none⟩],
         [{ id := lineDeviceId line, name := lineDeviceName line,
            mac := lineDeviceId line, connected := true, paired := true }], [])
    else
      ([⟨"bluetoothctl info " ++ lineDeviceId line, none⟩], [], [])

/-- The status loop over all device-list lines. -/
def statusDevices (env : ExecEnv) : List String →
    List ExecCall × List BTDevice × List BTDevice
  | [] => ([], [], [])
  | l :: ls =>
    let p := statusLine env l
    let q := statusDevices env ls
    (p.1 ++ q.1, p.2.1 ++ q.2.1, p.2.2 ++ q.2.2)

/-- `getBluetoothStatus()`: service-status probe, device enumeration, per-device
info fan-out, default-sink query.  The outer try/catch turns a failure of the
`systemctl is-active` or `bluetoothctl devices` invocation into the
failure-tolerant snapshot `btFailureStatus`; the function never throws. -/
def getBluetoothStatus (env : ExecEnv) : List ExecCall × BTStatus :=
  match env.run "systemctl is-active bluetooth" with
  | .error e => ([⟨"systemctl is-active bluetooth", none⟩], btFailureStatus e)
  | .ok svcOut =>
    match env.run "bluetoothctl devices" with
    | .error e =>
      ([⟨"systemctl is-active bluetooth", none⟩, ⟨"bluetoothctl devices", none⟩],
       btFailureStatus e)
    | .ok listOut =>
      let d := statusDevices env (deviceLines listOut)
      let s := defaultSinkQuery env
      ([⟨"systemctl is-active bluetooth", none⟩, ⟨"bluetoothctl devices", none⟩] ++
         d.1 ++ s.1,
       { serviceActive := jsTrim svcOut == "active",
         connectedDevices := d.2.1,
         audioDevices := d.2.2,
         currentAudioSink := s.2.1,
         isBluetoothAudio := s.2.2,
         hasConnectedAudioDevice := !(d.2.2.isEmpty) })

/-- The device-list identifiers visible in a snapshot's `bluetoothctl devices`
output (empty when the enumeration itself failed). -/
def deviceListIds (env : ExecEnv) : List String :=
  match env.run "bluetoothctl devices" with
  | .error _ => []
  | .ok out => (deviceLines out).map lineDeviceId

/-- Whether the info dump the snapshot obtains for `id` carries an
audio-capability marker. -/
def audioMarkerOf (env : ExecEnv) (id : String) : Bool :=
  match env.run ("bluetoothctl info " ++ id) with
  | .error _ => false
  | .ok info => audioMarker info

/-- Mark a device record as an audio device (the `{...deviceObj,
isAudioDevice: true}` spread). -/
def setAudioFlag (d : BTDevice) : BTDevice := { d with isAudioDevice := some true }

/-! ### The HTTP surface -/

/-- Response produced by the `POST /api/bluetooth` route for the
`bluetooth_audio_connect` command (fields the route may set). -/
structure BtCommandResponse where
  status : Nat
  success : Bool
  needsPiScan : Option Bool := none
  message : Option String := none
  error : Option String := none
deriving DecidableEq, Repr

/-- The route's device-id screening:
`deviceId && deviceId.includes("=") && !deviceId.includes(":")`
(the "looks like base64" heuristic; the empty string is falsy). -/
def looksEncodedDeviceId (d : String) : Bool :=
  !(d == "") && jsIncludes d "=" && !(jsIncludes d ":")

/-- The `bluetooth_audio_connect` branch of `POST /api/bluetooth`: a screened
identifier is answered with HTTP 400 and `needsPiScan: true` before any
subprocess runs; otherwise the identifier is forwarded to
`connectBluetoothAudio`, whose success yields HTTP 200 and whose thrown error
is turned into HTTP 500 by the route's outer catch. -/
def apiBluetoothConnect (env : ExecEnv) (deviceId deviceName : String) :
    List ExecCall × BtCommandResponse :=
  if looksEncodedDeviceId deviceId then
    ([], { status := 400, success := false, needsPiScan := some true,
           error := some "Invalid device ID format. Please use the Pi Bluetooth scanner to get proper MAC addresses." })
  else
    match connectBluetoothAudio env deviceId deviceName with
    | (t, .ok _) =>
      (t, { status := 200, success := true,
            message := some ("Connected to " ++ deviceName) })
    | (t, .error e) =>
      (t, { status := 500, success := false, error := some e })

/-- A device entry of the `GET /bluetooth/scan` response
(`{id: parts[1], name: parts.slice(2).join(" ")}`; `id` is absent when the
line has fewer than two tokens). -/
structure ScanDevice where
  id : Option String
  name : String
deriving DecidableEq, Repr

/-- Response shape of `GET /bluetooth/scan`. -/
structure ScanResponse where
  status : Nat
  success : Bool
  devices : List ScanDevice
  message : Option String := none
deriving DecidableEq, Repr

/-- The `GET /bluetooth/scan` handler: a 10s discovery window via the tool's
own `--timeout` flag, then device enumeration; any failure lands in the catch,
which answers HTTP 500 with `success: false`. -/
def bluetoothScanRoute (env : ExecEnv) : List ExecCall × ScanResponse :=
  match env.run "bluetoothctl --timeout 10 scan on" with
  | .error _ =>
    ([⟨"bluetoothctl --timeout 10 scan on", none⟩],
     { status := 500, success := false, devices := [],
       message := some "Bluetooth scan failed" })
  | .ok _ =>
    match env.run "bluetoothctl devices" with
    | .error _ =>
      ([⟨"bluetoothctl --timeout 10 scan on", none⟩, ⟨"bluetoothctl devices", none⟩],
       { status := 500, success := false, devices := [],
         message := some "Bluetooth scan failed" })
    | .ok out =>
      ([⟨"bluetoothctl --timeout 10 scan on", none⟩, ⟨"bluetoothctl devices", none⟩],
       { status := 200, success := true,
         devices := (jsSplit (jsTrim out) '\n').map (fun line =>
           { id := (jsSplit line ' ')[1]?, name := lineDeviceName line }) })

/-- Response shape of `GET /bluetooth/connected`. -/
structure ConnectedResponse where
  status : Nat
  success : Bool
  connectedDevices : List BTDevice
  currentAudioSink : String
  isBluetoothAudio : Bool
  hasConnectedAudioDevice : Bool
  error : Option String := none
deriving DecidableEq, Repr

/-- Per-line body of the `GET /bluetooth/connected` loop: `parts[1]` must be
truthy; a failing info query skips the device; a `Connected: yes` dump yields
a record with `paired := true` hardcoded, an empty name falling back to
`"Unknown Device"`, and the audio-capability flag from `audioMarker`. -/
def connectedLine (env : ExecEnv) (line : String) : List ExecCall × List BTDevice :=
  match (jsSplit line ' ')[1]? with
  | none => ([], [])
  | some deviceId =>
    if deviceId = "" then ([], [])
    else
      match env.run ("bluetoothctl info " ++ deviceId) with
      | .error _ => ([⟨"bluetoothctl info " ++ deviceId, none⟩], [])
      | .ok info =>
        if jsIncludes info "Connected: yes" then
          ([⟨"bluetoothctl info " ++ deviceId, none⟩],
           [{ id := deviceId,
              name := if lineDeviceName line = "" then "Unknown Device"
                      else lineDeviceName line,
              mac := deviceId, connected := true, paired := true,
              isAudioDevice := some (audioMarker info) }])
        else
          ([⟨"bluetoothctl info " ++ deviceId, none⟩], [])

/-- The device loop of `GET /bluetooth/connected`. -/
def connectedFold (env : ExecEnv) : List String → List ExecCall × List BTDevice
  | [] => ([], [])
  | l :: ls =>
    let p := connectedLine env l
    let q := connectedFold env ls
    (p.1 ++ q.1, p.2 ++ q.2)

/-- The `GET /bluetooth/connected` handler: device enumeration plus per-device
info fan-out plus the default-sink query; a failing enumeration lands in the
catch, which answers HTTP 500 with `success: false` and empty data. -/
def bluetoothConnectedRoute (env : ExecEnv) : List ExecCall × ConnectedResponse :=
  match env.run "bluetoothctl devices" with
  | .error e =>
    ([⟨"bluetoothctl devices", none⟩],
     { status := 500, success := false, connectedDevices := [],
       currentAudioSink := "unknown", isBluetoothAudio := false,
       hasConnectedAudioDevice := false, error := some e })
  | .ok out =>
    let r := connectedFold env (deviceLines out)
    let s := defaultSinkQuery env
    (⟨"bluetoothctl devices", none⟩ :: r.1 ++ s.1,
     { status := 200, success := true, connectedDevices := r.2,
       currentAudioSink := s.2.1, isBluetoothAudio := s.2.2,
       hasConnectedAudioDevice := r.2.any (fun d => d.isAudioDevice.getD false) })

/-! ### Concurrency model

The Express process runs all handlers on one event loop; each
`await execAsync(...)` is a yield point and the source takes no lock, so the
external-tool invocations of two in-flight requests may interleave in any
order that preserves each request's own program order.  `interleavings`
enumerates exactly those orders for two requests' call sequences (calls tagged
with the request number). -/

/-- All interleavings of two sequences that preserve the order within each. -/
def interleavings {α : Type} : List α → List α → List (List α)
  | [], ys => [ys]
  | x :: xs, [] => [x :: xs]
  | x :: xs, y :: ys =>
    (interleavings xs (y :: ys)).map (x :: ·) ++
      (interleavings (x :: xs) ys).map (y :: ·)
termination_by xs ys => xs.length + ys.length

/-- A combined trace is serialized when no call of request 1 occurs after a
call of request 2 (request 2 begins only after request 1 has completed). -/
def noOneAfterTwo : List (Nat × String) → Bool
  | [] => true
  | (k, _) :: t => if k = 2 then t.all (fun p => p.1 == 2) else noOneAfterTwo t

/-! ### Concrete environments and traces used by witnesses and counterexamples -/

/-- Environment in which every command succeeds with empty stdout. -/
def envAllOk : ExecEnv := ⟨fun _ => .ok ""⟩

/-- Environment in which every command fails. -/
def envAllFail : ExecEnv := ⟨fun _ => .error "boom"⟩

/-- A well-formed device address used throughout the concrete scenarios. -/
def macA : String := "AA:BB:CC:DD:EE:FF"

/-- The external-tool call sequence of one successful connection attempt. -/
def connectCallTrace : List String :=
  ((connectBluetoothAudio envAllOk macA "Headphones").1).map ExecCall.cmd

/-- The first concurrent connection attempt's calls, tagged 1. -/
def btTrace1 : List (Nat × String) := connectCallTrace.map (fun c => (1, c))

/-- The second concurrent connection attempt's calls, tagged 2. -/
def btTrace2 : List (Nat × String) := connectCallTrace.map (fun c => (2, c))

/-- Environment where the target reports `Connected: yes` but the issued
disconnect fails (the orchestrator swallows the failure). -/
def envReconnectDiscFails : ExecEnv := ⟨fun c =>
  if c = "bluetoothctl info AA:BB:CC:DD:EE:FF" then .ok "Connected: yes"
  else if c = "bluetoothctl disconnect AA:BB:CC:DD:EE:FF" then
    .error "org.bluez.Error.Failed"
  else .ok ""⟩

/-- Environment where the target reports `Connected: yes` and the disconnect
succeeds. -/
def envReconnectOk : ExecEnv := ⟨fun c =>
  if c = "bluetoothctl info AA:BB:CC:DD:EE:FF" then .ok "Connected: yes"
  else .ok ""⟩

/-- Environment where the device connects but both sink-selection mechanisms
fail. -/
def envAudioFail : ExecEnv := ⟨fun c =>
  if c = "pacmd set-default-sink bluez_sink.AA_BB_CC_DD_EE_FF.a2dp_sink" then
    .error "No PulseAudio daemon running"
  else if c = "pactl set-default-sink bluez_sink.AA_BB_CC_DD_EE_FF.a2dp_sink" then
    .error "Failure: No such entity"
  else .ok ""⟩

/-- Environment where the service is active and a device is listed but its
per-device info query fails (and the sink query fails). -/
def envInfoFails : ExecEnv := ⟨fun c =>
  if c = "systemctl is-active bluetooth" then .ok "active"
  else if c = "bluetoothctl devices" then .ok "Device AA:BB:CC:DD:EE:FF Buds"
  else .error "No default controller available"⟩

/-- Environment with one connected audio-capable device. -/
def envC6 : ExecEnv := ⟨fun c =>
  if c = "bluetoothctl devices" then .ok "Device AA:BB:CC:DD:EE:FF Buds"
  else if c = "bluetoothctl info AA:BB:CC:DD:EE:FF" then
    .ok "Connected: yes\n\tUUID: Audio Sink"
  else .ok ""⟩

/-- Environment whose info dump reports the device connected but explicitly
not paired. -/
def envPairedNo : ExecEnv := ⟨fun c =>
  if c = "bluetoothctl devices" then .ok "Device AA:BB:CC:DD:EE:FF Buds"
  else if c = "bluetoothctl info AA:BB:CC:DD:EE:FF" then
    .ok "Connected: yes\nPaired: no"
  else .ok ""⟩

/-- Inverse of the colon rewriting on underscore-free characters. -/
def unreplace (c : Char) : Char := if c = '_' then ':' else c

/-! ## Helper lemmas -/

theorem data_append (a b : String) : (a ++ b).data = a.data ++ b.data := rfl

theorem unreplace_replace (c : Char) (hc : c ≠ '_') :
    unreplace (if c = ':' then '_' else c) = c := by
  by_cases h : c = ':' <;> simp [unreplace, h, hc]

theorem map_unreplace (l : List Char) (hl : '_' ∉ l) :
    (l.map fun c => if c = ':' then '_' else c).map unreplace = l := by
  induction l with
  | nil => rfl
  | cons c t ih =>
    simp only [List.mem_cons, not_or] at hl
    simp only [List.map_cons]
    rw [unreplace_replace c (fun h => hl.1 h.symm), ih hl.2]

/-! ## C7: the sink-name transform -/

/-- C7 (amended): `sinkNameFor` is a pure Lean function (hence deterministic),
and it is injective on device identifiers that contain no underscore — in
particular on colon-separated MAC addresses.  (Globally it is not injective;
see the counterexample.) -/
theorem c7_sinkNameFor_injective_on_plain_ids (s t : String)
    (hs : '_' ∉ s.data) (ht : '_' ∉ t.data)
    (h : sinkNameFor s = sinkNameFor t) : s = t := by
  have h1 : ("bluez_sink.".data ++ (replaceColons s).data) ++ ".a2dp_sink".data =
      ("bluez_sink.".data ++ (replaceColons t).data) ++ ".a2dp_sink".data := by
    have := congrArg String.data h
    rwa [sinkNameFor, sinkNameFor, data_append, data_append, data_append,
      data_append] at this
  have h2 : (replaceColons s).data = (replaceColons t).data :=
    List.append_cancel_left (List.append_cancel_right h1)
  have h3 : (s.data.map fun c => if c = ':' then '_' else c) =
      (t.data.map fun c => if c = ':' then '_' else c) := h2
  have h4 : s.data = t.data := by
    have := congrArg (List.map unreplace) h3
    rwa [map_unreplace _ hs, map_unreplace _ ht] at this
  cases s with
  | mk d1 => cases t with
    | mk d2 => exact congrArg String.mk h4

/-- C7 witness: the injectivity theorem applied at a concrete MAC-shaped
identifier. -/
theorem c7_witness : '_' ∉ ("AA:BB" : String).data ∧ ("AA:BB" : String) = "AA:BB" :=
  ⟨by decide, c7_sinkNameFor_injective_on_plain_ids "AA:BB" "AA:BB"
    (by decide) (by decide) rfl⟩

/-- C7 counterexample: the transform is not injective on all identifiers —
`"a:b"` and `"a_b"` are distinct yet map to the same sink name, because the
colon rewriting collapses `:` and `_`. -/
theorem c7_counterexample :
    sinkNameFor "a:b" = sinkNameFor "a_b" ∧ ("a:b" : String) ≠ "a_b" := by
  refine ⟨by decide, by decide⟩

/-! ## C9: HTTP status codes for tool-level failures -/

/-- C9 (amended): the `GET /bluetooth/scan` and `GET /bluetooth/connected`
handlers answer either HTTP 200 with `success: true` or HTTP 500 with
`success: false`; a tool-level failure is reported with status 500, never as a
200 body with `success: false`. -/
theorem c9_response_dichotomy (env : ExecEnv) :
    (((bluetoothScanRoute env).2.status = 200 ∧ (bluetoothScanRoute env).2.success = true) ∨
      ((bluetoothScanRoute env).2.status = 500 ∧ (bluetoothScanRoute env).2.success = false)) ∧
    (((bluetoothConnectedRoute env).2.status = 200 ∧ (bluetoothConnectedRoute env).2.success = true) ∨
      ((bluetoothConnectedRoute env).2.status = 500 ∧ (bluetoothConnectedRoute env).2.success = false)) := by
  constructor
  · cases h1 : env.run "bluetoothctl --timeout 10 scan on" with
    | error e => right; simp [bluetoothScanRoute, h1]
    | ok o =>
      cases h2 : env.run "bluetoothctl devices" with
      | error e => right; simp [bluetoothScanRoute, h1, h2]
      | ok o2 => left; simp [bluetoothScanRoute, h1, h2]
  · cases h1 : env.run "bluetoothctl devices" with
    | error e => right; simp [bluetoothConnectedRoute, h1]
    | ok o => left; simp [bluetoothConnectedRoute, h1]

/-- C9 counterexample: a tool-level failure (the scan command fails) is
answered with HTTP 500, not with HTTP 200 and `success: false` as the claim
states. -/
theorem c9_counterexample :
    envAllFail.run "bluetoothctl --timeout 10 scan on" = Except.error "boom" ∧
    (bluetoothScanRoute envAllFail).2.status = 500 ∧
    (bluetoothScanRoute envAllFail).2.success = false :=
  ⟨rfl, rfl, rfl⟩

/-! ## C1: screening of non-address device identifiers -/

/-- C1 (amended): a connect request whose `deviceId` contains `"="` and no
`":"` (the route's "looks like base64" heuristic) is rejected with HTTP 400,
`needsPiScan: true`, and no subprocess invocation at all.  (Identifiers
outside this heuristic — including unpadded base64 — are forwarded; see the
counterexample.) -/
theorem c1_screened_ids_rejected_before_subprocess (env : ExecEnv)
    (d n : String) (h : looksEncodedDeviceId d = true) :
    apiBluetoothConnect env d n =
      ([], { status := 400, success := false, needsPiScan := some true,
             error := some "Invalid device ID format. Please use the Pi Bluetooth scanner to get proper MAC addresses." }) := by
  simp [apiBluetoothConnect, h]

/-- C1 witness: the rejection theorem applied to a padded base64 token. -/
theorem c1_witness :
    looksEncodedDeviceId "bm90LWEtbWFjaGluZQ==" = true ∧
    apiBluetoothConnect envAllOk "bm90LWEtbWFjaGluZQ==" "X" =
      ([], { status := 400, success := false, needsPiScan := some true,
             error := some "Invalid device ID format. Please use the Pi Bluetooth scanner to get proper MAC addresses." }) :=
  ⟨by decide, c1_screened_ids_rejected_before_subprocess envAllOk
    "bm90LWEtbWFjaGluZQ==" "X" (by decide)⟩

/-- C1 counterexample: the unpadded base64 token `"bm90LWEtbWFj"` (the spec's
own scenario input) contains no `"="`, so it passes the heuristic, the route
answers 200 without `needsPiScan`, and the identifier is forwarded to
`bluetoothctl connect`. -/
theorem c1_counterexample :
    looksEncodedDeviceId "bm90LWEtbWFj" = false ∧
    (apiBluetoothConnect envAllOk "bm90LWEtbWFj" "X").2.status = 200 ∧
    (apiBluetoothConnect envAllOk "bm90LWEtbWFj" "X").2.needsPiScan = none ∧
    (⟨"bluetoothctl connect bm90LWEtbWFj", none⟩ : ExecCall) ∈
      (apiBluetoothConnect envAllOk "bm90LWEtbWFj" "X").1 := by
  refine ⟨by decide, rfl, rfl, by decide⟩

/-! ## C3: audio-routing failure is non-fatal -/

/-- C3 (confirmed): whenever the attempt reaches and passes the
`bluetoothctl connect` step but both sink-selection mechanisms (`pacmd` then
`pactl set-default-sink`) fail, `connectBluetoothAudio` still returns a
normal composite result with `connected = true` and `audioSetSuccess = false`
— audio-routing failure never downgrades the attempt to an overall failure. -/
theorem c3_audio_failure_nonfatal (env : ExecEnv) (d n o1 o2 e3 e4 : String)
    (h1 : env.run "sudo systemctl start bluetooth" = Except.ok o1)
    (h2 : env.run ("bluetoothctl connect " ++ d) = Except.ok o2)
    (h3 : env.run ("pacmd set-default-sink " ++ sinkNameFor d) = Except.error e3)
    (h4 : env.run ("pactl set-default-sink " ++ sinkNameFor d) = Except.error e4) :
    ∃ r, (connectBluetoothAudio env d n).2 = Except.ok r ∧
      r.connected = true ∧ r.audioSetSuccess = false := by
  simp only [connectBluetoothAudio, h1, h2]
  refine ⟨_, rfl, rfl, ?_⟩
  simp [audioRouteStep, h3, h4]

/-- C3 witness: a concrete environment where the connect succeeds but both
sink-selection commands fail. -/
theorem c3_witness :
    ∃ r, (connectBluetoothAudio envAudioFail "AA:BB:CC:DD:EE:FF" "H").2 = Except.ok r ∧
      r.connected = true ∧ r.audioSetSuccess = false :=
  c3_audio_failure_nonfatal envAudioFail "AA:BB:CC:DD:EE:FF" "H" "" "" "No PulseAudio daemon running" "Failure: No such entity" rfl rfl rfl rfl

/-! ## C4: the idempotent-reconnect flag -/

/-- C4 (amended): in an attempt that reaches and passes the connect step,
`wasReconnected` is true exactly when the pre-attempt info query succeeded
reporting `Connected: yes` AND the disconnect then issued for the target
succeeded; and whenever the info query reports `Connected: yes`, a
`bluetoothctl disconnect` for the target is issued (a failing disconnect is
swallowed and leaves `wasReconnected = false`). -/
theorem c4_wasReconnected_characterization (env : ExecEnv) (d n o1 o2 : String)
    (h1 : env.run "sudo systemctl start bluetooth" = Except.ok o1)
    (h2 : env.run ("bluetoothctl connect " ++ d) = Except.ok o2) :
    ∃ r, (connectBluetoothAudio env d n).2 = Except.ok r ∧
      (r.wasReconnected = true ↔
        ∃ info, env.run ("bluetoothctl info " ++ d) = Except.ok info ∧
          jsIncludes info "Connected: yes" = true ∧
          ∃ u, env.run ("bluetoothctl disconnect " ++ d) = Except.ok u) ∧
      (∀ info, env.run ("bluetoothctl info " ++ d) = Except.ok info →
        jsIncludes info "Connected: yes" = true →
        (⟨"bluetoothctl disconnect " ++ d, none⟩ : ExecCall) ∈
          (connectBluetoothAudio env d n).1) := by
  simp only [connectBluetoothAudio, h1, h2]
  refine ⟨_, rfl, ?_, ?_⟩
  · unfold targetReconnectStep
    cases hI : env.run ("bluetoothctl info " ++ d) with
    | error e => simp [hI]
    | ok info =>
      by_cases hC : jsIncludes info "Connected: yes" = true
      · cases hD : env.run ("bluetoothctl disconnect " ++ d) with
        | error e => simp [hC, hD]
        | ok u => simp [hC, hD]
      · simp only [Bool.not_eq_true] at hC
        simp [hC]
  · intro info hI hC
    have hmem : (⟨"bluetoothctl disconnect " ++ d, none⟩ : ExecCall) ∈
        (targetReconnectStep env d).1 := by
      unfold targetReconnectStep
      rw [hI]
      cases hD : env.run ("bluetoothctl disconnect " ++ d) <;> simp [hC]
    simp only [List.mem_append]
    tauto

/-- C4 witness: with the pre-attempt info reporting `Connected: yes` and a
succeeding disconnect, the attempt reports `wasReconnected = true`. -/
theorem c4_witness :
    ∃ r, (connectBluetoothAudio envReconnectOk "AA:BB:CC:DD:EE:FF" "H").2 = Except.ok r ∧
      r.wasReconnected = true := by
  obtain ⟨r, hr, hiff, -⟩ :=
    c4_wasReconnected_characterization envReconnectOk "AA:BB:CC:DD:EE:FF" "H" "" "" rfl rfl
  exact ⟨r, hr, hiff.mpr ⟨"Connected: yes", rfl, by decide, "", rfl⟩⟩

/-- C4 counterexample: when the pre-attempt info query reports the target
connected but the issued disconnect fails, the failure is swallowed and the
completed attempt reports `wasReconnected = false` — contradicting
"`wasReconnected == true` whenever the device's pre-attempt state was
connected". -/
theorem c4_counterexample :
    envReconnectDiscFails.run "bluetoothctl info AA:BB:CC:DD:EE:FF" =
      Except.ok "Connected: yes" ∧
    jsIncludes "Connected: yes" "Connected: yes" = true ∧
    (connectBluetoothAudio envReconnectDiscFails "AA:BB:CC:DD:EE:FF" "H").2.map
      ConnectResult.wasReconnected = Except.ok false :=
  ⟨rfl, by decide, rfl⟩

/-! ## C5: failure tolerance of the status snapshot -/

/-- C5 (amended): `getBluetoothStatus` always returns normally (its embedding
is a total function), and when the `systemctl is-active` probe or the
`bluetoothctl devices` enumeration fails it returns exactly the failure
snapshot: `serviceActive: false`, empty device collections,
`currentAudioSink: "unknown"`, `hasConnectedAudioDevice: false`.  (A failure
of a per-device info query or of the sink query does not produce this shape;
see the counterexample.) -/
theorem c5_failure_shape_on_core_queries (env : ExecEnv) (e : String)
    (h : env.run "systemctl is-active bluetooth" = Except.error e ∨
      (∃ o, env.run "systemctl is-active bluetooth" = Except.ok o ∧
        env.run "bluetoothctl devices" = Except.error e)) :
    (getBluetoothStatus env).2 = btFailureStatus e := by
  rcases h with h1 | ⟨o, h1, h2⟩
  · simp [getBluetoothStatus, h1]
  · simp [getBluetoothStatus, h1, h2]

/-- C5 witness: the failure-shape theorem applied to an environment where
every command fails. -/
theorem c5_witness : (getBluetoothStatus envAllFail).2 = btFailureStatus "boom" :=
  c5_failure_shape_on_core_queries envAllFail "boom" (Or.inl rfl)

/-- C5 counterexample: an execution in which an underlying tool invocation
(the per-device `bluetoothctl info`, which the snapshot does issue) fails,
yet the snapshot reports `serviceActive = true` rather than the claimed
all-false/empty failure shape. -/
theorem c5_counterexample :
    (⟨"bluetoothctl info AA:BB:CC:DD:EE:FF", none⟩ : ExecCall) ∈
      (getBluetoothStatus envInfoFails).1 ∧
    envInfoFails.run "bluetoothctl info AA:BB:CC:DD:EE:FF" =
      Except.error "No default controller available" ∧
    (getBluetoothStatus envInfoFails).2.serviceActive = true := by
  refine ⟨by decide, rfl, rfl⟩

/-! ## C6: snapshot consistency invariants -/

theorem statusLine_mem (env : ExecEnv) (l : String) :
    ∀ d ∈ (statusLine env l).2.1, d.id = lineDeviceId l ∧ d.paired = true := by
  intro d hd
  unfold statusLine at hd
  cases hI : env.run ("bluetoothctl info " ++ lineDeviceId l) with
  | error e =>
    rw [hI] at hd
    simp at hd
  | ok info =>
    rw [hI] at hd
    by_cases hC : jsIncludes info "Connected: yes" = true
    · by_cases hA : audioMarker info = true
      · simp [hC, hA] at hd
        subst hd
        exact ⟨rfl, rfl⟩
      · simp [hC, hA] at hd
        subst hd
        exact ⟨rfl, rfl⟩
    · simp [hC] at hd

theorem statusLine_audio (env : ExecEnv) (l : String) :
    (statusLine env l).2.2 =
      ((statusLine env l).2.1.filter (fun d => audioMarkerOf env d.id)).map setAudioFlag := by
  unfold statusLine
  cases hI : env.run ("bluetoothctl info " ++ lineDeviceId l) with
  | error e => simp
  | ok info =>
    by_cases hC : jsIncludes info "Connected: yes" = true
    · by_cases hA : audioMarker info = true
      · simp [hC, hA, audioMarkerOf, hI, setAudioFlag]
      · simp [hC, hA, audioMarkerOf, hI]
    · simp [hC]

theorem statusDevices_mem (env : ExecEnv) :
    ∀ ls : List String, ∀ d ∈ (statusDevices env ls).2.1,
      d.id ∈ ls.map lineDeviceId ∧ d.paired = true := by
  intro ls
  induction ls with
  | nil => intro d hd; simp [statusDevices] at hd
  | cons l t ih =>
    intro d hd
    simp only [statusDevices, List.mem_append] at hd
    rcases hd with h | h
    · obtain ⟨h1, h2⟩ := statusLine_mem env l d h
      exact ⟨by simp [h1], h2⟩
    · obtain ⟨h1, h2⟩ := ih d h
      exact ⟨by simp only [List.map_cons, List.mem_cons]; exact Or.inr h1, h2⟩

theorem statusDevices_audio (env : ExecEnv) :
    ∀ ls : List String, (statusDevices env ls).2.2 =
      ((statusDevices env ls).2.1.filter (fun d => audioMarkerOf env d.id)).map setAudioFlag := by
  intro ls
  induction ls with
  | nil => simp [statusDevices]
  | cons l t ih =>
    simp only [statusDevices]
    rw [List.filter_append, List.map_append, ← ih, ← statusLine_audio env l]

/-- C6 (confirmed): in every snapshot, each reported connected device carries
an identifier that comes from the `bluetoothctl devices` output of that
snapshot (a device absent from the device list is never reported connected),
and `audioDevices` is exactly the audio-flagged image of the connected
devices whose info dump carries an audio-capability marker. -/
theorem c6_snapshot_invariants (env : ExecEnv) :
    (∀ d ∈ (getBluetoothStatus env).2.connectedDevices, d.id ∈ deviceListIds env) ∧
    (getBluetoothStatus env).2.audioDevices =
      ((getBluetoothStatus env).2.connectedDevices.filter
        (fun d => audioMarkerOf env d.id)).map setAudioFlag := by
  cases h1 : env.run "systemctl is-active bluetooth" with
  | error e =>
    refine ⟨fun d hd => ?_, ?_⟩
    · simp [getBluetoothStatus, h1, btFailureStatus] at hd
    · simp [getBluetoothStatus, h1, btFailureStatus]
  | ok svc =>
    cases h2 : env.run "bluetoothctl devices" with
    | error e =>
      refine ⟨fun d hd => ?_, ?_⟩
      · simp [getBluetoothStatus, h1, h2, btFailureStatus] at hd
      · simp [getBluetoothStatus, h1, h2, btFailureStatus]
    | ok out =>
      refine ⟨fun d hd => ?_, ?_⟩
      · simp only [getBluetoothStatus, h1, h2] at hd
        have := (statusDevices_mem env (deviceLines out) d hd).1
        simpa [deviceListIds, h2] using this
      · simp only [getBluetoothStatus, h1, h2]
        exact statusDevices_audio env (deviceLines out)

/-- C6 witness: the snapshot invariants at a concrete environment with one
connected audio-capable device. -/
theorem c6_witness :
    (⟨"AA:BB:CC:DD:EE:FF", "Buds", "AA:BB:CC:DD:EE:FF", true, true, none⟩ : BTDevice).id ∈
      deviceListIds envC6 ∧
    (getBluetoothStatus envC6).2.audioDevices =
      ((getBluetoothStatus envC6).2.connectedDevices.filter
        (fun d => audioMarkerOf envC6 d.id)).map setAudioFlag :=
  ⟨(c6_snapshot_invariants envC6).1 _ (by decide), (c6_snapshot_invariants envC6).2⟩

/-! ## C10: the hardcoded `paired` flag -/

theorem connectedLine_paired (env : ExecEnv) (l : String) :
    ∀ d ∈ (connectedLine env l).2, d.paired = true := by
  intro d hd
  unfold connectedLine at hd
  cases hP : (jsSplit l ' ')[1]? with
  | none => rw [hP] at hd; simp at hd
  | some did =>
    rw [hP] at hd
    by_cases hE : did = ""
    · simp [hE] at hd
    · simp only [hE, if_false, if_neg hE] at hd
      cases hI : env.run ("bluetoothctl info " ++ did) with
      | error e => rw [hI] at hd; simp at hd
      | ok info =>
        rw [hI] at hd
        by_cases hC : jsIncludes info "Connected: yes" = true
        · simp [hC] at hd
          subst hd
          rfl
        · simp [hC] at hd

theorem connectedFold_paired (env : ExecEnv) :
    ∀ ls : List String, ∀ d ∈ (connectedFold env ls).2, d.paired = true := by
  intro ls
  induction ls with
  | nil => intro d hd; simp [connectedFold] at hd
  | cons l t ih =>
    intro d hd
    simp only [connectedFold, List.mem_append] at hd
    rcases hd with h | h
    · exact connectedLine_paired env l d h
    · exact ih d h

/-- C10 (confirmed): every device the status snapshot or the
`GET /bluetooth/connected` endpoint reports as connected has `paired = true`
unconditionally — the flag is a hardcoded literal, never parsed from the
tool's info output. -/
theorem c10_paired_hardcoded_true (env : ExecEnv) :
    (∀ d ∈ (getBluetoothStatus env).2.connectedDevices, d.paired = true) ∧
    (∀ d ∈ (bluetoothConnectedRoute env).2.connectedDevices, d.paired = true) := by
  constructor
  · intro d hd
    cases h1 : env.run "systemctl is-active bluetooth" with
    | error e => simp [getBluetoothStatus, h1, btFailureStatus] at hd
    | ok svc =>
      cases h2 : env.run "bluetoothctl devices" with
      | error e => simp [getBluetoothStatus, h1, h2, btFailureStatus] at hd
      | ok out =>
        simp only [getBluetoothStatus, h1, h2] at hd
        exact (statusDevices_mem env (deviceLines out) d hd).2
  · intro d hd
    cases h2 : env.run "bluetoothctl devices" with
    | error e => simp [bluetoothConnectedRoute, h2] at hd
    | ok out =>
      simp only [bluetoothConnectedRoute, h2] at hd
      exact connectedFold_paired env (deviceLines out) d hd

/-- C10 witness: an info dump that explicitly says `Paired: no` still yields a
connected-device record with `paired = true`. -/
theorem c10_witness :
    (⟨"AA:BB:CC:DD:EE:FF", "Buds", "AA:BB:CC:DD:EE:FF", true, true, none⟩ : BTDevice) ∈
      (getBluetoothStatus envPairedNo).2.connectedDevices ∧
    jsIncludes "Connected: yes\nPaired: no" "Paired: no" = true ∧
    (⟨"AA:BB:CC:DD:EE:FF", "Buds", "AA:BB:CC:DD:EE:FF", true, true, none⟩ : BTDevice).paired = true :=
  ⟨by decide, by decide, (c10_paired_hardcoded_true envPairedNo).1 _ (by decide)⟩

/-! ## C8: timeouts on external-process invocations -/

theorem clearPriorLine_timeout (env : ExecEnv) (l : String) :
    ∀ c ∈ clearPriorLine env l, c.timeoutMs = none := by
  intro c hc
  unfold clearPriorLine at hc
  repeat' split at hc
  all_goals simp only [List.mem_cons, List.mem_singleton, List.not_mem_nil, or_false] at hc
  all_goals repeat' (first | (rcases hc with rfl | hc) | (subst hc))
  all_goals rfl

theorem clearPriorConnections_timeout (env : ExecEnv) :
    ∀ c ∈ clearPriorConnections env, c.timeoutMs = none := by
  intro c hc
  unfold clearPriorConnections at hc
  split at hc
  · simp only [List.mem_singleton] at hc
    subst hc
    rfl
  · simp only [List.mem_cons] at hc
    rcases hc with rfl | hc
    · rfl
    · rw [List.mem_flatten] at hc
      obtain ⟨l, hl, hcl⟩ := hc
      rw [List.mem_map] at hl
      obtain ⟨line, -, rfl⟩ := hl
      exact clearPriorLine_timeout env line c hcl

theorem trustPairStep_timeout (env : ExecEnv) (d : String) :
    ∀ c ∈ trustPairStep env d, c.timeoutMs = none := by
  intro c hc
  unfold trustPairStep at hc
  repeat' split at hc
  all_goals simp only [List.mem_cons, List.mem_singleton, List.not_mem_nil, or_false] at hc
  all_goals repeat' (first | (rcases hc with rfl | hc) | (subst hc))
  all_goals rfl

theorem targetReconnectStep_timeout (env : ExecEnv) (d : String) :
    ∀ c ∈ (targetReconnectStep env d).1, c.timeoutMs = none := by
  intro c hc
  unfold targetReconnectStep at hc
  repeat' split at hc
  all_goals simp only [List.mem_cons, List.mem_singleton, List.not_mem_nil, or_false] at hc
  all_goals repeat' (first | (rcases hc with rfl | hc) | (subst hc))
  all_goals rfl

theorem audioRouteStep_timeout (env : ExecEnv) (s : String) :
    ∀ c ∈ (audioRouteStep env s).1, c.timeoutMs = none := by
  intro c hc
  unfold audioRouteStep at hc
  repeat' split at hc
  all_goals simp only [List.mem_cons, List.mem_singleton, List.not_mem_nil, or_false] at hc
  all_goals repeat' (first | (rcases hc with rfl | hc) | (subst hc))
  all_goals rfl

theorem connectBluetoothAudio_timeout (env : ExecEnv) (d n : String) :
    ∀ c ∈ (connectBluetoothAudio env d n).1, c.timeoutMs = none := by
  intro c hc
  cases h1 : env.run "sudo systemctl start bluetooth" with
  | error e =>
    simp only [connectBluetoothAudio, h1, List.mem_singleton] at hc
    subst hc
    rfl
  | ok o =>
    cases h2 : env.run ("bluetoothctl connect " ++ d) with
    | error e =>
      simp only [connectBluetoothAudio, h1, h2, List.mem_append,
        List.mem_singleton] at hc
      rcases hc with (((rfl | hc) | hc) | hc) | rfl
      · rfl
      · exact clearPriorConnections_timeout env c hc
      · exact trustPairStep_timeout env d c hc
      · exact targetReconnectStep_timeout env d c hc
      · rfl
    | ok o2 =>
      simp only [connectBluetoothAudio, h1, h2, List.mem_append,
        List.mem_singleton] at hc
      rcases hc with (((((rfl | hc) | hc) | hc) | rfl) | hc) | rfl
      · rfl
      · exact clearPriorConnections_timeout env c hc
      · exact trustPairStep_timeout env d c hc
      · exact targetReconnectStep_timeout env d c hc
      · rfl
      · exact audioRouteStep_timeout env (sinkNameFor d) c hc
      · rfl

theorem statusLine_timeout (env : ExecEnv) (l : String) :
    ∀ c ∈ (statusLine env l).1, c.timeoutMs = none := by
  intro c hc
  unfold statusLine at hc
  repeat' split at hc
  all_goals simp only [List.mem_cons, List.mem_singleton, List.not_mem_nil, or_false] at hc
  all_goals repeat' (first | (rcases hc with rfl | hc) | (subst hc))
  all_goals rfl

theorem statusDevices_timeout (env : ExecEnv) :
    ∀ ls : List String, ∀ c ∈ (statusDevices env ls).1, c.timeoutMs = none := by
  intro ls
  induction ls with
  | nil => intro c hc; simp [statusDevices] at hc
  | cons l t ih =>
    intro c hc
    simp only [statusDevices, List.mem_append] at hc
    rcases hc with h | h
    · exact statusLine_timeout env l c h
    · exact ih c h

theorem defaultSinkQuery_timeout (env : ExecEnv) :
    ∀ c ∈ (defaultSinkQuery env).1, c.timeoutMs = none := by
  intro c hc
  unfold defaultSinkQuery at hc
  repeat' split at hc
  all_goals simp only [List.mem_singleton] at hc
  all_goals subst hc
  all_goals rfl

theorem getBluetoothStatus_timeout (env : ExecEnv) :
    ∀ c ∈ (getBluetoothStatus env).1, c.timeoutMs = none := by
  intro c hc
  cases h1 : env.run "systemctl is-active bluetooth" with
  | error e =>
    simp only [getBluetoothStatus, h1, List.mem_singleton] at hc
    subst hc
    rfl
  | ok svc =>
    cases h2 : env.run "bluetoothctl devices" with
    | error e =>
      simp only [getBluetoothStatus, h1, h2, List.mem_cons, List.not_mem_nil,
        or_false] at hc
      rcases hc with rfl | rfl <;> rfl
    | ok out =>
      simp only [getBluetoothStatus, h1, h2, List.mem_append, List.mem_cons,
        List.not_mem_nil, or_false] at hc
      rcases hc with ((rfl | rfl) | hc) | hc
      · rfl
      · rfl
      · exact statusDevices_timeout env (deviceLines out) c hc
      · exact defaultSinkQuery_timeout env c hc

/-- C8 (amended): no external-process invocation of the connection
orchestrator or the status snapshot carries an explicit timeout option — every
call site invokes the promisified `exec` without options, so a hung tool call
has no deadline and there is no distinct timeout failure kind.  (Only the scan
endpoint bounds the scan duration, via the tool's own `--timeout 10` flag
inside the command string.) -/
theorem c8_no_explicit_timeouts (env : ExecEnv) (d n : String) :
    (∀ c ∈ (connectBluetoothAudio env d n).1, c.timeoutMs = none) ∧
    (∀ c ∈ (getBluetoothStatus env).1, c.timeoutMs = none) :=
  ⟨connectBluetoothAudio_timeout env d n, getBluetoothStatus_timeout env⟩

/-- C8 witness: a concrete invocation of the connection orchestrator,
observed in its trace with no timeout. -/
theorem c8_witness :
    (⟨"sudo systemctl start bluetooth", none⟩ : ExecCall) ∈
      (connectBluetoothAudio envAllOk macA "Headphones").1 ∧
    (⟨"sudo systemctl start bluetooth", none⟩ : ExecCall).timeoutMs = none :=
  ⟨by decide, (c8_no_explicit_timeouts envAllOk macA "Headphones").1 _ (by decide)⟩

/-- C8 counterexample: it is not the case that every invocation of a
connection attempt runs under an explicit finite timeout — the very first
invocation has none. -/
theorem c8_counterexample :
    ¬ (∀ c ∈ (connectBluetoothAudio envAllOk macA "Headphones").1,
        ∃ t : Nat, c.timeoutMs = some t) := by
  intro h
  obtain ⟨t, ht⟩ := h ⟨"sudo systemctl start bluetooth", none⟩ (by decide)
  exact Option.noConfusion ht

/-! ## C2: serialization of concurrent operations -/

theorem self_append_mem_interleavings {α : Type} :
    ∀ (xs ys : List α), xs ++ ys ∈ interleavings xs ys := by
  intro xs
  induction xs with
  | nil => intro ys; simp [interleavings]
  | cons x xs ih =>
    intro ys
    cases ys with
    | nil => simp [interleavings]
    | cons y ys =>
      simp only [interleavings, List.mem_append, List.mem_map, List.cons_append]
      exact Or.inl ⟨xs ++ y :: ys, ih (y :: ys), rfl⟩

theorem mem_interleavings_cons_right {α : Type} (xs : List α) (y : α) (ys : List α) :
    y :: (xs ++ ys) ∈ interleavings xs (y :: ys) := by
  cases xs with
  | nil => simp [interleavings]
  | cons x xs =>
    simp only [interleavings, List.mem_append, List.mem_map]
    exact Or.inr ⟨(x :: xs) ++ ys, self_append_mem_interleavings _ _, rfl⟩

theorem interleavings_sublist_aux {α : Type} :
    ∀ (n : Nat) (xs ys t : List α), xs.length + ys.length ≤ n →
      t ∈ interleavings xs ys → xs.Sublist t ∧ ys.Sublist t := by
  intro n
  induction n with
  | zero =>
    intro xs ys t hlen hm
    cases xs with
    | nil =>
      simp only [interleavings, List.mem_singleton] at hm
      subst hm
      exact ⟨List.nil_sublist _, List.Sublist.refl _⟩
    | cons x xs => simp at hlen
  | succ n ih =>
    intro xs ys t hlen hm
    cases xs with
    | nil =>
      simp only [interleavings, List.mem_singleton] at hm
      subst hm
      exact ⟨List.nil_sublist _, List.Sublist.refl _⟩
    | cons x xs =>
      cases ys with
      | nil =>
        simp only [interleavings, List.mem_singleton] at hm
        subst hm
        exact ⟨List.Sublist.refl _, List.nil_sublist _⟩
      | cons y ys =>
        simp only [interleavings, List.mem_append, List.mem_map] at hm
        rcases hm with ⟨w, hw, rfl⟩ | ⟨w, hw, rfl⟩
        · have hrec := ih xs (y :: ys) w
            (by simp only [List.length_cons] at hlen ⊢; omega) hw
          exact ⟨List.Sublist.cons₂ x hrec.1, List.Sublist.cons x hrec.2⟩
        · have hrec := ih (x :: xs) ys w
            (by simp only [List.length_cons] at hlen ⊢; omega) hw
          exact ⟨List.Sublist.cons y hrec.1, List.Sublist.cons₂ y hrec.2⟩

/-- C2 (amended): the backend takes no lock, so in the event-loop model the
only guarantee for two concurrent connection attempts is per-request program
order: each request's external-tool call sequence is a subsequence of the
combined trace, for every possible interleaving; no cross-request
serialization is enforced (see the counterexample for a non-serialized valid
interleaving). -/
theorem c2_interleaving_preserves_request_order :
    ∀ t ∈ interleavings btTrace1 btTrace2,
      btTrace1.Sublist t ∧ btTrace2.Sublist t := by
  intro t ht
  exact interleavings_sublist_aux (btTrace1.length + btTrace2.length)
    btTrace1 btTrace2 t (le_refl _) ht

/-- C2 witness: the fully serialized interleaving, at which the order-
preservation theorem is instantiated. -/
theorem c2_witness :
    btTrace1 ++ btTrace2 ∈ interleavings btTrace1 btTrace2 ∧
    btTrace1.Sublist (btTrace1 ++ btTrace2) ∧
    btTrace2.Sublist (btTrace1 ++ btTrace2) := by
  have hm := self_append_mem_interleavings btTrace1 btTrace2
  exact ⟨hm, c2_interleaving_preserves_request_order _ hm⟩

/-- C2 counterexample: not every admissible interleaving of two concurrent
connection attempts is serialized — the interleaving in which the second
request's first tool call runs before the whole first request is a valid
trace of the lock-free code, and it is not serialized. -/
theorem c2_counterexample :
    ¬ (∀ t ∈ interleavings btTrace1 btTrace2, noOneAfterTwo t = true) := by
  intro h
  have h2 : btTrace2 = (2, "sudo systemctl start bluetooth") :: btTrace2.tail := by
    decide
  have hm := mem_interleavings_cons_right btTrace1
    (2, "sudo systemctl start bluetooth") btTrace2.tail
  rw [← h2] at hm
  exact absurd (h _ hm) (by decide)

end AuraBT
